import Mathlib

/-!
Verification of the entity-resolution and import engine of the
AntResearchDatabase repository.  The definitions below are a shallow
embedding of `src/csv_importer.py` (class `AntDatabaseImporter`) and of
`normalize_text` from `src/database/db_utils.py`.  Text is modelled as a
list of Unicode code points (`Str := List Char`); the SQLite store is
modelled as explicit lists of rows; the sqlite connection's
transaction (pending changes vs committed file) is modelled by an
explicit pair of database states.
-/

namespace AntDB

/-- Text is a list of Unicode scalar values, matching Python `str`. -/
abbrev Str := List Char

/-- Convenience: the code points of a Lean string literal. -/
def lit (s : String) : Str := s.data

/-- Python's whitespace predicate, as used by `str.strip()` and
`str.split()` with no arguments: the Unicode whitespace code points. -/
def isPySpace (c : Char) : Bool :=
  c.toNat == 0x9 || c.toNat == 0xA || c.toNat == 0xB || c.toNat == 0xC ||
  c.toNat == 0xD || c.toNat == 0x1C || c.toNat == 0x1D || c.toNat == 0x1E ||
  c.toNat == 0x1F || c.toNat == 0x20 || c.toNat == 0x85 || c.toNat == 0xA0 ||
  c.toNat == 0x1680 || (0x2000 ≤ c.toNat && c.toNat ≤ 0x200A) ||
  c.toNat == 0x2028 || c.toNat == 0x2029 || c.toNat == 0x202F ||
  c.toNat == 0x205F || c.toNat == 0x3000

/-- Leading-whitespace removal, one half of Python `str.strip()`. -/
def stripLeft (s : Str) : Str := s.dropWhile isPySpace

/-- Trailing-whitespace removal, the other half of Python `str.strip()`. -/
def stripRight (s : Str) : Str := (s.reverse.dropWhile isPySpace).reverse

/-- Python `str.strip()`: removes leading and trailing Unicode whitespace. -/
def strip (s : Str) : Str := stripRight (stripLeft s)

/-- The Unicode NFKC mapping `unicodedata.normalize('NFKC', .)` restricted
to a per-code-point compatibility-decomposition table covering the code
points exercised in this development (full-width Latin letters used in the
spec's example, the ideographic space U+3000, and U+00A8 DIAERESIS whose
NFKC form is SPACE followed by COMBINING DIAERESIS U+0308).  Code points
outside the table are NFKC-stable and are mapped to themselves, which
agrees with the Unicode standard on every input considered here; all table
outputs are themselves NFKC-normal, as in the standard. -/
def nfkcTable : List (Char × List Char) :=
  [ (Char.ofNat 0xFF23, ['C']),   -- Ｃ
    (Char.ofNat 0xFF4C, ['l']),   -- ｌ
    (Char.ofNat 0xFF4F, ['o']),   -- ｏ
    (Char.ofNat 0xFF53, ['s']),   -- ｓ
    (Char.ofNat 0xFF45, ['e']),   -- ｅ
    (Char.ofNat 0xFF21, ['A']),   -- Ａ
    (Char.ofNat 0xFF4E, ['n']),   -- ｎ
    (Char.ofNat 0xFF54, ['t']),   -- ｔ
    (Char.ofNat 0x3000, [' ']),   -- ideographic space
    (Char.ofNat 0xA8, [Char.ofNat 0x20, Char.ofNat 0x308]) ]  -- ¨

/-- NFKC mapping of a single code point (identity off the table). -/
def nfkcChar (c : Char) : List Char :=
  match nfkcTable.find? (fun p => p.1 == c) with
  | some p => p.2
  | none => [c]

/-- NFKC normalization of a text, `unicodedata.normalize('NFKC', s)`. -/
def nfkc (s : Str) : Str := s.flatMap nfkcChar

/-- `AntDatabaseImporter.normalize` (src/csv_importer.py lines 26-30):
NFKC applied to the stripped text.  The `pd.isna` guard of the source is
modelled by `normalizeField` below. -/
def normalize (s : Str) : Str := nfkc (strip s)

/-- A possibly-NaN CSV field: `none` models a pandas NaN (or an applied
string default), and the source's `pd.isna` guard maps it to the empty
string before normalizing. -/
def normalizeField (s : Option Str) : Str :=
  match s with
  | none => []
  | some t => normalize t

/-- Helper for Python `str.split()` with no argument: accumulates the
current word (reversed) and splits on runs of whitespace, discarding
empty words. -/
def pyWordsAux : List Char → List Char → List Str
  | [], acc => if acc.isEmpty then [] else [acc.reverse]
  | c :: cs, acc =>
    if isPySpace c then
      if acc.isEmpty then pyWordsAux cs [] else acc.reverse :: pyWordsAux cs []
    else pyWordsAux cs (c :: acc)

/-- Python `s.split()`: the whitespace-delimited words of `s`. -/
def pyWords (s : Str) : List Str := pyWordsAux s []

/-- `normalize_text` (src/database/db_utils.py lines 16-32): empty input
maps to the empty string; otherwise NFKC of the stripped text, with every
whitespace run collapsed to one ASCII space by
`' '.join(normalized.split())`. -/
def normalize_text (s : Str) : Str :=
  if s.isEmpty then []
  else List.intercalate [' '] (pyWords (nfkc (strip s)))

/-- SQLite NOCASE collation folds the ASCII letters A-Z only. -/
def asciiLower (c : Char) : Char :=
  if 'A' ≤ c && c ≤ 'Z' then Char.ofNat (c.toNat + 32) else c

/-- Equality of two texts under SQLite's COLLATE NOCASE. -/
def nocaseEq (a b : Str) : Bool :=
  a.map asciiLower == b.map asciiLower

/-- Python `s.split(',')` as used for the comma-separated synonym list. -/
def splitCommaAux : List Char → List Char → List Str
  | [], acc => [acc.reverse]
  | c :: cs, acc =>
    if c == ',' then acc.reverse :: splitCommaAux cs []
    else splitCommaAux cs (c :: acc)

/-- Splitting a synonyms cell on commas (src/csv_importer.py line 123). -/
def splitComma (s : Str) : List Str := splitCommaAux s []

/-- A row of the `species` table (spec section 6; the DDL file
`database_schema.sql` is not part of src/). -/
structure SpeciesRow where
  id : Nat
  scientific_name : Str
  japanese_name : Str
  subfamily : Str
  body_len_mm : Option Int
  red_list : Str
deriving DecidableEq, Repr

/-- A row of the `species_synonyms` table. -/
structure SynonymRow where
  id : Nat
  species_id : Nat
  name : Str
  name_normalized : Str
  synonym_type : Str
deriving DecidableEq, Repr

/-- A row of the `research` table. -/
structure ResearchRow where
  id : Nat
  title : Str
  author : Str
  year : Int
  doi : Str
  file_path : Str
deriving DecidableEq, Repr

/-- A row of a dimension table (`environment_types` or `methods`). -/
structure DimRow where
  id : Nat
  name : Str
deriving DecidableEq, Repr

/-- A row of the `survey_sites` table.  `survey_date` is stored as the
(possibly empty) normalized text the importer inserts; latitude and
longitude are SQL-nullable numerics, modelled as optional rationals. -/
structure SiteRow where
  id : Nat
  research_id : Nat
  site_name : Str
  survey_date : Str
  env_type_id : Option Nat
  latitude : Option Rat
  longitude : Option Rat
  elevation_m : Option Int
deriving DecidableEq, Repr

/-- A row of the `occurrences` table.  `method_id` is SQL-nullable. -/
structure OccurrenceRow where
  id : Nat
  site_id : Nat
  species_id : Nat
  method_id : Option Nat
  abundance : Int
  unit : Str
deriving DecidableEq, Repr

/-- The database state: the tables touched by the importer. -/
structure DB where
  species : List SpeciesRow
  synonyms : List SynonymRow
  research : List ResearchRow
  envTypes : List DimRow
  methods : List DimRow
  sites : List SiteRow
  occurrences : List OccurrenceRow
deriving DecidableEq, Repr

/-- The empty database. -/
def emptyDB : DB := ⟨[], [], [], [], [], [], []⟩

/-- The id SQLite assigns to a freshly inserted row: one past the
largest id present. -/
def nextId (ids : List Nat) : Nat := ids.foldr max 0 + 1

/-- SQL three-valued equality on a nullable integer column against a
possibly-NULL bound parameter: `col = param` is satisfied only when both
sides are non-NULL and equal (`NULL = NULL` is not true). -/
def sqlNullEq (a b : Option Nat) : Bool :=
  match a, b with
  | some x, some y => x == y
  | _, _ => false

/-- `AntDatabaseImporter.get_or_create_id` (src/csv_importer.py lines
32-51): normalize the name (None on empty), look the normalized name up
case-insensitively in the dimension table, otherwise insert it. -/
def getOrCreateId (rows : List DimRow) (name : Option Str) :
    Option Nat × List DimRow :=
  let n := normalizeField name
  if n.isEmpty then (none, rows)
  else
    match rows.find? (fun r => nocaseEq r.name n) with
    | some r => (some r.id, rows)
    | none =>
      let i := nextId (rows.map (fun r => r.id))
      (some i, rows ++ [⟨i, n⟩])

/-- `AntDatabaseImporter.resolve_species` (src/csv_importer.py lines
53-83): normalize the label (None on empty), then first the exact lookup
in `species_synonyms.name_normalized`, then the case-insensitive lookups
against `species.scientific_name` and `species.japanese_name`; None when
nothing matches. -/
def resolveSpecies (db : DB) (name : Str) : Option Nat :=
  let n := normalize name
  if n.isEmpty then none
  else
    match db.synonyms.find? (fun r => r.name_normalized == n) with
    | some r => some r.species_id
    | none =>
      match db.species.find? (fun r => nocaseEq r.scientific_name n) with
      | some r => some r.id
      | none =>
        match db.species.find? (fun r => nocaseEq r.japanese_name n) with
        | some r => some r.id
        | none => none

/-- Species resolution as the spec's words describe it (spec section 4.3
and claim C6): the first hit of the three lookup paths applied to the
normalized label, with no guard for an empty key.  Stated for comparison
with `resolveSpecies`, which is translated from the source. -/
def specResolveKey (db : DB) (key : Str) : Option Nat :=
  match db.synonyms.find? (fun r => r.name_normalized == key) with
  | some r => some r.species_id
  | none =>
    match db.species.find? (fun r => nocaseEq r.scientific_name key) with
    | some r => some r.id
    | none =>
      match db.species.find? (fun r => nocaseEq r.japanese_name key) with
      | some r => some r.id
      | none => none

/-- The `INSERT OR IGNORE INTO species` of src/csv_importer.py lines
96-106.  Modelled from the spec: the DDL file `database_schema.sql` is
not under src/, and spec section 6 gives `scientific_name UNIQUE`, so the
insert is ignored exactly when a row with the same scientific name
already exists. -/
def insertOrIgnoreSpecies (sp : List SpeciesRow) (sci jpn subf : Str)
    (bl : Option Int) (rl : Str) : List SpeciesRow :=
  if sp.any (fun r => r.scientific_name == sci) then sp
  else sp ++ [⟨nextId (sp.map (fun r => r.id)), sci, jpn, subf, bl, rl⟩]

/-- The `INSERT OR IGNORE INTO species_synonyms` of src/csv_importer.py
lines 115-131.  Modelled from the spec: spec section 6 gives
`name_normalized UNIQUE` (the DDL file is not under src/), so the insert
is ignored exactly when the normalized name is already present. -/
def insertOrIgnoreSynonym (syns : List SynonymRow) (sid : Nat)
    (name nn t : Str) : List SynonymRow :=
  if syns.any (fun r => r.name_normalized == nn) then syns
  else syns ++ [⟨nextId (syns.map (fun r => r.id)), sid, name, nn, t⟩]

/-- A species-phase CSV row after pandas parsing.  `none` in a text field
models a NaN cell (for `subfamily` and `red_list` the source applies the
default before normalizing, with the same result); `body_len_mm` is
passed through subject to `pd.notna`; `synonyms` is the raw
comma-separated cell, absent or NaN when `none`. -/
structure SpeciesCsvRow where
  scientific_name : Option Str
  japanese_name : Option Str
  subfamily : Option Str
  body_len_mm : Option Int
  red_list : Option Str
  synonyms : Option Str
deriving DecidableEq, Repr

/-- The alias loop of src/csv_importer.py lines 122-131: normalize each
comma-separated piece, skip empties, and insert-or-ignore the rest as
alias synonyms of the resolved species. -/
def insertAliases (syns : List SynonymRow) (sid : Nat) (pieces : List Str) :
    List SynonymRow :=
  pieces.foldl
    (fun s piece =>
      let nn := normalize piece
      if nn.isEmpty then s
      else insertOrIgnoreSynonym s sid piece nn (lit "alias"))
    syns

/-- One iteration of `AntDatabaseImporter.import_species`
(src/csv_importer.py lines 90-134): insert-or-ignore the species row,
resolve the (already normalized) scientific name, silently skip the row
when it does not resolve, then insert-or-ignore the two primary synonyms
and the comma-separated aliases.  No modelled step raises, so the row
always commits. -/
def importSpeciesRow (db : DB) (r : SpeciesCsvRow) : DB :=
  let sci := normalizeField r.scientific_name
  let jpn := normalizeField r.japanese_name
  let sp := insertOrIgnoreSpecies db.species sci jpn
      (normalizeField r.subfamily) r.body_len_mm (normalizeField r.red_list)
  let db := { db with species := sp }
  match resolveSpecies db sci with
  | none => db
  | some sid =>
    let syns := insertOrIgnoreSynonym db.synonyms sid sci sci (lit "primary")
    let syns := insertOrIgnoreSynonym syns sid jpn jpn (lit "primary")
    let syns :=
      match r.synonyms with
      | none => syns
      | some raw => insertAliases syns sid (splitComma raw)
    { db with synonyms := syns }

/-- `AntDatabaseImporter.import_species` over a parsed CSV
(src/csv_importer.py lines 85-138). -/
def importSpecies (db : DB) (rows : List SpeciesCsvRow) : DB :=
  rows.foldl importSpeciesRow db

/-- The research lookup of src/csv_importer.py lines 177-184:
case-insensitive exact title match. -/
def lookupResearch (rs : List ResearchRow) (title : Str) : Option Nat :=
  (rs.find? (fun r => nocaseEq r.title title)).map (fun r => r.id)

/-- The natural-key test of the survey-site query (src/csv_importer.py
lines 199-205): research id, exact site name, date with NULL read as
empty, and coordinates with NULL read as zero on both sides. -/
def siteKeyMatch (rid : Nat) (sn sd : Str) (lat lon : Option Rat)
    (s : SiteRow) : Bool :=
  s.research_id == rid && s.site_name == sn && s.survey_date == sd &&
  s.latitude.getD 0 == lat.getD 0 && s.longitude.getD 0 == lon.getD 0

/-- The survey-site upsert of src/csv_importer.py lines 199-217: return
the existing row's id unchanged when the natural key matches, otherwise
insert a new row carrying the incoming attributes. -/
def upsertSite (sites : List SiteRow) (rid : Nat) (sn sd : Str)
    (eid : Option Nat) (lat lon : Option Rat) (elev : Option Int) :
    Nat × List SiteRow :=
  match sites.find? (siteKeyMatch rid sn sd lat lon) with
  | some s => (s.id, sites)
  | none =>
    let i := nextId (sites.map (fun s => s.id))
    (i, sites ++ [⟨i, rid, sn, sd, eid, lat, lon, elev⟩])

/-- The occurrence natural-key test of the query at src/csv_importer.py
lines 229-233: `method_id = ?` uses SQL equality, so a NULL method id
never matches. -/
def occKeyMatch (site sp : Nat) (m : Option Nat) (unit : Str)
    (o : OccurrenceRow) : Bool :=
  o.site_id == site && o.species_id == sp && sqlNullEq o.method_id m &&
  o.unit == unit

/-- The occurrence registration of src/csv_importer.py lines 229-251:
additively update the matching row, otherwise insert a new one.
Modelled from the spec: the DDL file is not under src/ and spec section 6
gives `abundance INTEGER with a lower bound of 0`, so a write that would
store a negative abundance fails as a CHECK-constraint store error and
leaves the table unchanged. -/
def addOrMergeOccurrence (occs : List OccurrenceRow) (site sp : Nat)
    (m : Option Nat) (unit : Str) (ab : Int) :
    Except Str (List OccurrenceRow) :=
  match occs.find? (occKeyMatch site sp m unit) with
  | some o =>
    let na := o.abundance + ab
    if na < 0 then .error (lit "CHECK constraint failed: abundance")
    else .ok (occs.map (fun r =>
      if r.id == o.id then { r with abundance := na } else r))
  | none =>
    if ab < 0 then .error (lit "CHECK constraint failed: abundance")
    else .ok (occs ++
      [⟨nextId (occs.map (fun r => r.id)), site, sp, m, ab, unit⟩])

/-- A record-phase CSV row after pandas parsing.  For text fields with a
`row.get(key, default)` in the source, the outer `Option` is the column
being present (`none` means absent, so the source's default applies) and
the inner `Option` is the cell being NaN.  `abundance` abstracts
`int(row.get('abundance', 1))`: outer `none` means the column is absent
(default 1), `some none` a cell on which `int()` raises (NaN or
non-numeric text), `some (some n)` a cell parsing to the integer `n`. -/
structure RecordCsvRow where
  research_title : Option Str
  site_name : Option Str
  survey_date : Option Str
  latitude : Option Rat
  longitude : Option Rat
  elevation_m : Option Int
  environment : Option (Option Str)
  method : Option (Option Str)
  species_name : Option Str
  abundance : Option (Option Int)
  unit : Option (Option Str)
deriving DecidableEq, Repr

/-- `row.get(key, default)` on a possibly-absent, possibly-NaN cell. -/
def optGetD (f : Option (Option Str)) (d : Str) : Option Str :=
  match f with
  | none => some d
  | some v => v

/-- `int(row.get('abundance', 1))`: `none` when `int()` raises. -/
def parseAbundance (f : Option (Option Int)) : Option Int :=
  match f with
  | none => some 1
  | some none => none
  | some (some n) => some n

/-- One iteration of `AntDatabaseImporter.import_records`
(src/csv_importer.py lines 173-253), following the source's numbered
steps: research lookup (ValueError when missing), dimension
get-or-create for environment and method, survey-site upsert, species
resolution (ValueError when missing), abundance parse, then the
occurrence merge-or-insert.  Returns the mutated connection state plus
the error message when the row raised; an exception leaves every mutation
already made by the row in place, since the source rolls nothing back. -/
def importRecordRow (db : DB) (r : RecordCsvRow) : DB × Option Str :=
  let title := normalizeField r.research_title
  match lookupResearch db.research title with
  | none => (db, some (lit "Research not found: " ++ title))
  | some research_id =>
    let env := getOrCreateId db.envTypes (optGetD r.environment (lit "その他"))
    let db := { db with envTypes := env.2 }
    let meth := getOrCreateId db.methods (optGetD r.method (lit "その他"))
    let db := { db with methods := meth.2 }
    let site_name := normalizeField r.site_name
    let survey_date := normalizeField r.survey_date
    let site := upsertSite db.sites research_id site_name survey_date env.1
        r.latitude r.longitude r.elevation_m
    let db := { db with sites := site.2 }
    let species_name := normalizeField r.species_name
    match resolveSpecies db species_name with
    | none => (db, some (lit "Species not found: " ++ species_name))
    | some species_id =>
      match parseAbundance r.abundance with
      | none => (db, some (lit "invalid literal for int()"))
      | some ab =>
        let unit := normalizeField (optGetD r.unit (lit "worker"))
        match addOrMergeOccurrence db.occurrences site.1 species_id meth.1
            unit ab with
        | .error e => (db, some e)
        | .ok occs => ({ db with occurrences := occs }, none)

/-- The connection state during a batch: `live` is what the open sqlite
connection sees (committed data plus the pending transaction), and
`committed` is what the database file holds; `conn.commit()` copies
`live` into `committed`, and closing the connection discards everything
beyond `committed`. -/
structure ImpState where
  live : DB
  committed : DB
  errorLog : List Str
deriving DecidableEq, Repr

/-- The error-log entry the source appends for a failed row
(src/csv_importer.py line 256): the plain string built from the row index
and the exception message. -/
def rowErrEntry (idx : Nat) (msg : Str) : Str :=
  lit "Row " ++ (Nat.repr idx).data ++ lit ": " ++ msg

/-- The per-row loop of `AntDatabaseImporter.import_records`
(src/csv_importer.py lines 173-257): on success `conn.commit()` makes
every pending effect durable; on an exception the error string is logged
and the loop continues, with the failed row's pending effects neither
committed nor rolled back. -/
def importRecordsAux (st : ImpState) (idx : Nat) :
    List RecordCsvRow → ImpState
  | [] => st
  | r :: rs =>
    let step := importRecordRow st.live r
    match step.2 with
    | none => importRecordsAux ⟨step.1, step.1, st.errorLog⟩ (idx + 1) rs
    | some m =>
      importRecordsAux
        ⟨step.1, st.committed, st.errorLog ++ [rowErrEntry idx m]⟩
        (idx + 1) rs

/-- `AntDatabaseImporter.import_records` over a parsed CSV, starting at
row index 0 (src/csv_importer.py lines 168-257). -/
def importRecords (st : ImpState) (rows : List RecordCsvRow) : ImpState :=
  importRecordsAux st 0 rows

/-- A connection freshly opened on a database file holding `db`. -/
def initState (db : DB) : ImpState := ⟨db, db, []⟩

/-- A record-phase CSV row for the concrete scenarios: reference title
r1, the given site and species names, optional method cell, abundance
cell and elevation; survey date, coordinates, environment and unit
columns absent, so the source's defaults apply. -/
def mkRec (site species : String) (meth : Option (Option String))
    (ab : Option (Option Int)) (elev : Option Int) : RecordCsvRow :=
  ⟨some (lit "r1"), some (lit site), none, none, none, elev, none,
    meth.map (fun o => o.map lit), some (lit species), ab, none⟩

/-- Seed database for the record scenarios: one research row titled r1
and one species aa (vernacular jj) with no registered synonyms. -/
def dbR : DB :=
  { emptyDB with
    research := [⟨1, lit "r1", lit "au", 2020, [], []⟩],
    species := [⟨1, lit "aa", lit "jj", [], none, []⟩] }

/-- A present, non-NaN method cell holding mc. -/
def mc : Option (Option String) := some (some "mc")

/-- Claim C1's merge scenario: abundance 15 then 8 on one natural key. -/
def rows1523 : List RecordCsvRow :=
  [mkRec "sA" "aa" mc (some (some 15)) none,
   mkRec "sA" "aa" mc (some (some 8)) none]

/-- Two identical record rows whose method cell is NaN, so the method id
resolves to NULL. -/
def rowsNullMethod : List RecordCsvRow :=
  [mkRec "sA" "aa" (some none) (some (some 15)) none,
   mkRec "sA" "aa" (some none) (some (some 8)) none]

/-- Claim C2's scenario: the first row fails on an unresolvable species
after its site was inserted, the second row succeeds. -/
def rowsC2 : List RecordCsvRow :=
  [mkRec "s0" "nope" mc (some (some 5)) none,
   mkRec "s1" "aa" mc (some (some 5)) none]

/-- Claim C3's batch of five rows whose third row (index 2) names an
unresolvable species; the failing row's abundance cell is the parameter,
exercising that the error log does not retain the raw row. -/
def c3batch (k : Int) : List RecordCsvRow :=
  [mkRec "s0" "aa" mc (some (some 3)) none,
   mkRec "s1" "aa" mc (some (some 4)) none,
   mkRec "s2" "nope" mc (some (some k)) none,
   mkRec "s3" "aa" mc (some (some 5)) none,
   mkRec "s4" "aa" mc (some (some 6)) none]

/-- Claim C7's scenario: identical site natural key, elevations 100 and
200. -/
def rowsC7 : List RecordCsvRow :=
  [mkRec "sA" "aa" mc (some (some 1)) (some 100),
   mkRec "sA" "aa" mc (some (some 1)) (some 200)]

/-- Claim C9's scenario: abundance 10 then abundance -3 on the same
natural key. -/
def rowsC9 : List RecordCsvRow :=
  [mkRec "sA" "aa" mc (some (some 10)) none,
   mkRec "sA" "aa" mc (some (some (-3))) none]

/-- A species-phase CSV row for the concrete scenarios. -/
def spRow (sci jpn : String) (syns : Option String) : SpeciesCsvRow :=
  ⟨some (lit sci), some (lit jpn), none, none, none, syns.map lit⟩

/-- Claim C10's scenario: species aa registers alias foo; a later
species-phase row has scientific name foo, and a re-import of it brings
the alias bar. -/
def rowsC10 : List SpeciesCsvRow :=
  [spRow "aa" "j1" (some "foo"), spRow "foo" "j2" none,
   spRow "foo" "j2" (some "bar")]

/-- Claim C6's scenario: a species row whose vernacular-name cell is NaN,
which registers a synonym row with an empty normalized name. -/
def rowC6 : SpeciesCsvRow := ⟨some (lit "a"), none, none, none, none, none⟩

/-- A pre-existing survey-site row used by claim C7's witness. -/
def siteC7w : SiteRow := ⟨5, 2, lit "sA", [], none, none, none, some 7⟩

/-- A pre-existing occurrence row used by claim C1's witness. -/
def occC1w : OccurrenceRow := ⟨1, 1, 1, some 1, 10, lit "u"⟩

/-- A pre-existing synonym row used by claim C8's witness. -/
def synC8w : SynonymRow := ⟨4, 2, lit "z", lit "z", lit "alias"⟩

/-- A database holding species x (with its primary synonym) used by
claim C10's witness. -/
def dbC10w : DB :=
  { emptyDB with
    species := [⟨1, lit "x", lit "y", [], none, []⟩],
    synonyms := [⟨1, 1, lit "x", lit "x", lit "primary"⟩] }

/-- A species-phase row re-importing species x with alias z, used by
claim C10's witness. -/
def rowC10w : SpeciesCsvRow :=
  ⟨some (lit "x"), some (lit "y"), none, none, none, some (lit "z")⟩

/-- Claim C8's scenario: two species registrations s1 and s2 whose
synonyms cells both hold the same alias text. -/
def rowsC8 (a : Str) : List SpeciesCsvRow :=
  [⟨some (lit "s1"), some (lit "j1"), none, none, none, some a⟩,
   ⟨some (lit "s2"), some (lit "j2"), none, none, none, some a⟩]

/-- At most one occurrence row per natural key, among rows whose method
id is non-NULL (spec section 3's invariant restricted to keys SQL
equality can actually match). -/
def occNatKeyUnique (occs : List OccurrenceRow) : Prop :=
  ∀ o1 ∈ occs, ∀ o2 ∈ occs, o1.method_id ≠ none →
    o1.site_id = o2.site_id → o1.species_id = o2.species_id →
    o1.method_id = o2.method_id → o1.unit = o2.unit → o1.id = o2.id

/-- Claim C1, counterexample: importing the same record twice with a NaN
method cell gives a NULL method id, the SQL natural-key lookup never
matches a NULL method id, and the committed store ends with two
occurrence rows carrying the same natural key (site 1, species 1, NULL
method, unit worker) and the unmerged abundances 15 and 8 — not one row
with 23, refuting that at most one occurrence row per natural key exists
after any sequence of record imports. -/
theorem c1_counterexample :
    ((importRecords (initState dbR) rowsNullMethod).committed.occurrences.map
        (fun o => (o.site_id, o.species_id, o.method_id, o.unit))) =
      [(1, 1, none, lit "worker"), (1, 1, none, lit "worker")] ∧
    ((importRecords (initState dbR) rowsNullMethod).committed.occurrences.map
        (fun o => o.abundance)) = [15, 8] := by
  decide

/-- Claim C2, counterexample: row 0 fails on an unresolvable species
after its survey site s0 was inserted, and no rollback occurs, so when
row 1 later commits, the failed row's site s0 becomes visible in the
committed store — the failed row's effects are not isolated from later
rows. -/
theorem c2_counterexample :
    (importRecords (initState dbR) rowsC2).errorLog =
      [rowErrEntry 0 (lit "Species not found: nope")] ∧
    ((importRecords (initState dbR) rowsC2).committed.sites.map
        (fun s => s.site_name)) = [lit "s0", lit "s1"] := by
  decide

/-- Claim C3, counterexample: two five-row batches that differ only in
the failing third row's abundance cell produce identical error logs, so
the log entry is not a structured record carrying the raw row — the raw
row data cannot be recovered from the log. -/
theorem c3_counterexample :
    c3batch 7 ≠ c3batch 9 ∧
    (importRecords (initState dbR) (c3batch 7)).errorLog =
      (importRecords (initState dbR) (c3batch 9)).errorLog := by
  decide

/-- Claim C3, amended: a batch of five record rows whose row of 0-based
index 2 names an unresolvable species yields exactly one error-log
entry, the plain string built from index 2 and the exception message,
and the other four rows' occurrence effects are committed. -/
theorem c3_amended :
    (importRecords (initState dbR) (c3batch 7)).errorLog =
      [rowErrEntry 2 (lit "Species not found: nope")] ∧
    ((importRecords (initState dbR) (c3batch 7)).committed.occurrences.map
        (fun o => (o.site_id, o.species_id, o.abundance))) =
      [(1, 1, 3), (2, 1, 4), (4, 1, 5), (5, 1, 6)] := by
  decide

/-- Claim C4, counterexample: the spec's own example fails on both
normalizers — neither `normalize` (which does not collapse runs and does
not lowercase) nor `normalize_text` (which collapses runs but does not
lowercase) maps the full-width mixed-case input to the lowercase key. -/
theorem c4_counterexample :
    normalize (lit "Ｃｌｏｓｅ   Ant ") ≠ normalize (lit "close ant") ∧
    normalize_text (lit "Ｃｌｏｓｅ   Ant ") ≠ normalize_text (lit "close ant") := by
  decide

/-- Claim C5, counterexample: NFKC can create leading whitespace after
stripping (U+00A8 DIAERESIS normalizes to SPACE plus COMBINING
DIAERESIS), so the second application strips the new leading space and
`normalize (normalize x)` differs from `normalize x`. -/
theorem c5_counterexample :
    normalize (normalize (lit "¨")) ≠ normalize (lit "¨") := by
  decide

/-- Claim C6, counterexample: importing a species row with scientific
name a and a NaN vernacular cell registers a synonym row whose
normalized name is empty; resolving the empty label then returns None
through the early empty-key guard even though the synonym-index lookup
path (the spec's first path, `specResolveKey`) has a hit. -/
theorem c6_counterexample :
    ((importSpeciesRow emptyDB rowC6).synonyms.any
        (fun r => r.name_normalized == ([] : Str))) = true ∧
    resolveSpecies (importSpeciesRow emptyDB rowC6) [] = none ∧
    specResolveKey (importSpeciesRow emptyDB rowC6) (normalize []) = some 1 := by
  decide

/-- Claim C9, counterexample: a record row with abundance -3 whose
natural key matches an existing occurrence with abundance 10 neither
fails validation nor is rejected — the negative value is additively
merged and the committed abundance drops to 7, with an empty error
log. -/
theorem c9_counterexample :
    (importRecords (initState dbR) rowsC9).errorLog = [] ∧
    ((importRecords (initState dbR) rowsC9).committed.occurrences.map
        (fun o => o.abundance)) = [7] := by
  decide

/-- Claim C1, amended: when the natural key with a non-NULL method id
matches an existing occurrence with abundance a, the import updates that
same row to a plus the incoming abundance and inserts nothing; when no
row matches and the abundance is admissible it inserts exactly one new
row; at most one occurrence row per natural key among non-NULL-method
rows is preserved by every merge-or-insert (rows with a NULL method id
are never matched by the SQL key lookup and may duplicate, as the
counterexample shows); and importing 15 then 8 on one key commits a
single row with abundance 23. -/
theorem c1_amended :
    (∀ (occs : List OccurrenceRow) (site sp m : Nat) (unit : Str) (ab : Int)
        (o : OccurrenceRow),
        occs.find? (occKeyMatch site sp (some m) unit) = some o →
        0 ≤ o.abundance + ab →
        addOrMergeOccurrence occs site sp (some m) unit ab =
          .ok (occs.map fun r =>
            if r.id == o.id then { r with abundance := o.abundance + ab }
            else r)) ∧
    (∀ (occs : List OccurrenceRow) (site sp m : Nat) (unit : Str) (ab : Int),
        occs.find? (occKeyMatch site sp (some m) unit) = none → 0 ≤ ab →
        addOrMergeOccurrence occs site sp (some m) unit ab =
          .ok (occs ++
            [⟨nextId (occs.map fun r => r.id), site, sp, some m, ab, unit⟩])) ∧
    (∀ (occs occs' : List OccurrenceRow) (site sp : Nat) (m : Option Nat)
        (unit : Str) (ab : Int),
        addOrMergeOccurrence occs site sp m unit ab = Except.ok occs' →
        occNatKeyUnique occs → occNatKeyUnique occs') ∧
    (importRecords (initState dbR) rows1523).committed.occurrences =
      [⟨1, 1, 1, some 1, 23, lit "worker"⟩] := by
  refine ⟨?_, ?_, ?_, by decide⟩
  · intro occs site sp m unit ab o hf hnn
    simp [addOrMergeOccurrence, hf, not_lt.mpr hnn]
  · intro occs site sp m unit ab hf hnn
    simp [addOrMergeOccurrence, hf, not_lt.mpr hnn]
  · intro occs occs' site sp m unit ab hok hu
    unfold addOrMergeOccurrence at hok
    cases hf : occs.find? (occKeyMatch site sp m unit) with
    | some o =>
      rw [hf] at hok
      by_cases hneg : o.abundance + ab < 0
      · simp [hneg] at hok
      · simp only [if_neg hneg, Except.ok.injEq] at hok
        subst hok
        intro o1 h1 o2 h2 hm hsite hspec hmeth hunit
        obtain ⟨x1, hx1, rfl⟩ := List.mem_map.mp h1
        obtain ⟨x2, hx2, rfl⟩ := List.mem_map.mp h2
        have e1 : ∀ x : OccurrenceRow,
            ((if x.id == o.id then { x with abundance := o.abundance + ab }
              else x) : OccurrenceRow).id = x.id ∧
            ((if x.id == o.id then { x with abundance := o.abundance + ab }
              else x) : OccurrenceRow).site_id = x.site_id ∧
            ((if x.id == o.id then { x with abundance := o.abundance + ab }
              else x) : OccurrenceRow).species_id = x.species_id ∧
            ((if x.id == o.id then { x with abundance := o.abundance + ab }
              else x) : OccurrenceRow).method_id = x.method_id ∧
            ((if x.id == o.id then { x with abundance := o.abundance + ab }
              else x) : OccurrenceRow).unit = x.unit := by
          intro x
          by_cases hx : (x.id == o.id) = true <;> simp [hx]
        obtain ⟨i1, s1, p1, m1, u1⟩ := e1 x1
        obtain ⟨i2, s2, p2, m2, u2⟩ := e1 x2
        rw [i1, i2]
        exact hu x1 hx1 x2 hx2 (by rw [m1] at hm; exact hm)
          (by rw [s1, s2] at hsite; exact hsite)
          (by rw [p1, p2] at hspec; exact hspec)
          (by rw [m1, m2] at hmeth; exact hmeth)
          (by rw [u1, u2] at hunit; exact hunit)
    | none =>
      rw [hf] at hok
      by_cases hneg : ab < 0
      · simp [hneg] at hok
      · simp only [if_neg hneg, Except.ok.injEq] at hok
        subst hok
        have hnomatch : ∀ x ∈ occs, occKeyMatch site sp m unit x = false := by
          intro x hx
          have hx2 := List.find?_eq_none.mp hf x hx
          simpa using hx2
        have key_of : ∀ (x : OccurrenceRow) (mv : Nat), x.site_id = site →
            x.species_id = sp → x.method_id = m → x.unit = unit →
            m = some mv → occKeyMatch site sp m unit x = true := by
          intro x mv hxs hxp hxm hxu hmv
          simp [occKeyMatch, sqlNullEq, hxs, hxp, hxu, hxm, hmv]
        intro o1 h1 o2 h2 hm hsite hspec hmeth hunit
        rcases List.mem_append.mp h1 with h1a | h1b
        · rcases List.mem_append.mp h2 with h2a | h2b
          · exact hu o1 h1a o2 h2a hm hsite hspec hmeth hunit
          · exfalso
            have hb : o2 = ⟨nextId (occs.map fun r => r.id), site, sp, m,
                ab, unit⟩ := by simpa using h2b
            rw [hb] at hsite hspec hmeth hunit
            have hsite1 : o1.site_id = site := hsite
            have hspec1 : o1.species_id = sp := hspec
            have hmeth1 : o1.method_id = m := hmeth
            have hunit1 : o1.unit = unit := hunit
            rcases hmm : m with _ | mv
            · rw [hmm] at hmeth1
              exact hm hmeth1
            · have hkey := key_of o1 mv hsite1 hspec1 hmeth1 hunit1 hmm
              rw [hnomatch o1 h1a] at hkey
              exact Bool.false_ne_true hkey
        · rcases List.mem_append.mp h2 with h2a | h2b
          · exfalso
            have hb : o1 = ⟨nextId (occs.map fun r => r.id), site, sp, m,
                ab, unit⟩ := by simpa using h1b
            rw [hb] at hm hsite hspec hmeth hunit
            have hm1 : m ≠ none := hm
            have hsite2 : o2.site_id = site := hsite.symm
            have hspec2 : o2.species_id = sp := hspec.symm
            have hmeth2 : o2.method_id = m := hmeth.symm
            have hunit2 : o2.unit = unit := hunit.symm
            rcases hmm : m with _ | mv
            · exact hm1 hmm
            · have hkey := key_of o2 mv hsite2 hspec2 hmeth2 hunit2 hmm
              rw [hnomatch o2 h2a] at hkey
              exact Bool.false_ne_true hkey
          · have hb1 : o1 = ⟨nextId (occs.map fun r => r.id), site, sp, m,
                ab, unit⟩ := by simpa using h1b
            have hb2 : o2 = ⟨nextId (occs.map fun r => r.id), site, sp, m,
                ab, unit⟩ := by simpa using h2b
            rw [hb1, hb2]

/-- Witness for the amended C1's merge conjunct at a one-row table. -/
theorem c1_witness :
    ([occC1w].find? (occKeyMatch 1 1 (some 1) (lit "u")) = some occC1w ∧
      0 ≤ occC1w.abundance + 5) ∧
    addOrMergeOccurrence [occC1w] 1 1 (some 1) (lit "u") 5 =
      .ok ([occC1w].map fun r =>
        if r.id == occC1w.id then { r with abundance := occC1w.abundance + 5 }
        else r) :=
  ⟨⟨by decide, by decide⟩,
   c1_amended.1 [occC1w] 1 1 1 (lit "u") 5 occC1w (by decide) (by decide)⟩

/-- Claim C2, amended: a successful record row commits every pending
effect at its end; a failed record row's effects are not committed at
that point but are also not rolled back — they stay in the open
transaction and become committed when any later row commits, as the
concrete conjunct shows: the failed row 0's site s0 is committed by row
1's commit. -/
theorem c2_amended :
    (∀ (st : ImpState) (idx : Nat) (r : RecordCsvRow),
        (importRecordRow st.live r).2 = none →
        importRecordsAux st idx [r] =
          ⟨(importRecordRow st.live r).1, (importRecordRow st.live r).1,
            st.errorLog⟩) ∧
    (∀ (st : ImpState) (idx : Nat) (r : RecordCsvRow) (m : Str),
        (importRecordRow st.live r).2 = some m →
        importRecordsAux st idx [r] =
          ⟨(importRecordRow st.live r).1, st.committed,
            st.errorLog ++ [rowErrEntry idx m]⟩) ∧
    ((importRecords (initState dbR) rowsC2).errorLog =
        [rowErrEntry 0 (lit "Species not found: nope")] ∧
      (importRecords (initState dbR) rowsC2).committed.sites.map
          (fun s => s.site_name) = [lit "s0", lit "s1"]) := by
  refine ⟨?_, ?_, by decide, by decide⟩
  · intro st idx r h
    simp [importRecordsAux, h]
  · intro st idx r m h
    simp [importRecordsAux, h]

/-- Witness for the amended C2 at one succeeding and one failing row. -/
theorem c2_witness :
    ((importRecordRow (initState dbR).live
        (mkRec "sA" "aa" mc (some (some 1)) none)).2 = none ∧
      importRecordsAux (initState dbR) 0
          [mkRec "sA" "aa" mc (some (some 1)) none] =
        ⟨(importRecordRow (initState dbR).live
            (mkRec "sA" "aa" mc (some (some 1)) none)).1,
          (importRecordRow (initState dbR).live
            (mkRec "sA" "aa" mc (some (some 1)) none)).1,
          (initState dbR).errorLog⟩) ∧
    ((importRecordRow (initState dbR).live
        (mkRec "s0" "nope" mc (some (some 1)) none)).2 =
        some (lit "Species not found: nope") ∧
      importRecordsAux (initState dbR) 0
          [mkRec "s0" "nope" mc (some (some 1)) none] =
        ⟨(importRecordRow (initState dbR).live
            (mkRec "s0" "nope" mc (some (some 1)) none)).1,
          (initState dbR).committed,
          (initState dbR).errorLog ++
            [rowErrEntry 0 (lit "Species not found: nope")]⟩) :=
  ⟨⟨by decide,
    c2_amended.1 (initState dbR) 0 (mkRec "sA" "aa" mc (some (some 1)) none)
      (by decide)⟩,
   ⟨by decide,
    c2_amended.2.1 (initState dbR) 0
      (mkRec "s0" "nope" mc (some (some 1)) none)
      (lit "Species not found: nope") (by decide)⟩⟩

/-- Claim C9, amended: an abundance cell on which int() raises fails the
row (row-local) and leaves the occurrences table untouched; but the
importer has no non-negativity validation — a negative abundance only
fails when the write would store a negative total (the store's CHECK
constraint, on a fresh insert or a merge below zero), while a negative
abundance merged into a larger existing total succeeds and decrements
the stored abundance, as the counterexample shows. -/
theorem c9_amended :
    (∀ (db : DB) (r : RecordCsvRow), r.abundance = some none →
        ((importRecordRow db r).2.isSome = true ∧
          (importRecordRow db r).1.occurrences = db.occurrences)) ∧
    (∀ (occs : List OccurrenceRow) (site sp : Nat) (m : Option Nat)
        (unit : Str) (ab : Int), ab < 0 →
        occs.find? (occKeyMatch site sp m unit) = none →
        addOrMergeOccurrence occs site sp m unit ab =
          .error (lit "CHECK constraint failed: abundance")) ∧
    (∀ (occs : List OccurrenceRow) (site sp : Nat) (m : Option Nat)
        (unit : Str) (ab : Int) (o : OccurrenceRow),
        occs.find? (occKeyMatch site sp m unit) = some o →
        o.abundance + ab < 0 →
        addOrMergeOccurrence occs site sp m unit ab =
          .error (lit "CHECK constraint failed: abundance")) ∧
    (∀ (occs : List OccurrenceRow) (site sp : Nat) (m : Option Nat)
        (unit : Str) (ab : Int) (o : OccurrenceRow),
        occs.find? (occKeyMatch site sp m unit) = some o →
        0 ≤ o.abundance + ab →
        addOrMergeOccurrence occs site sp m unit ab =
          .ok (occs.map fun x =>
            if x.id == o.id then { x with abundance := o.abundance + ab }
            else x)) := by
  refine ⟨?_, ?_, ?_, ?_⟩
  · intro db r h
    unfold importRecordRow
    dsimp only
    split
    · exact ⟨rfl, rfl⟩
    · split
      · exact ⟨rfl, rfl⟩
      · split
        · exact ⟨rfl, rfl⟩
        · rename_i ab heq
          rw [h] at heq
          simp [parseAbundance] at heq
  · intro occs site sp m unit ab hneg hf
    simp [addOrMergeOccurrence, hf, hneg]
  · intro occs site sp m unit ab o hf hneg
    simp [addOrMergeOccurrence, hf, hneg]
  · intro occs site sp m unit ab o hf hnn
    simp [addOrMergeOccurrence, hf, not_lt.mpr hnn]

/-- Witness for the amended C9's int()-failure conjunct. -/
theorem c9_witness :
    (mkRec "s" "x" none (some none) none).abundance = some none ∧
    ((importRecordRow emptyDB (mkRec "s" "x" none (some none) none)).2.isSome
        = true ∧
      (importRecordRow emptyDB
          (mkRec "s" "x" none (some none) none)).1.occurrences =
        emptyDB.occurrences) :=
  ⟨by decide,
   c9_amended.1 emptyDB (mkRec "s" "x" none (some none) none) (by decide)⟩

/-- Dropping a prefix that satisfies the predicate throughout is the
same as dropping from the remainder. -/
theorem dropWhile_append_sat (p : Char → Bool) (w t : Str)
    (h : ∀ c ∈ w, p c = true) : (w ++ t).dropWhile p = t.dropWhile p := by
  induction w with
  | nil => simp
  | cons c cs ih =>
    have hc : p c = true := h c (by simp)
    simp only [List.cons_append, List.dropWhile_cons, hc, if_true]
    exact ih fun x hx => h x (by simp [hx])

/-- When dropWhile stops inside the first list, a suffix passes through
untouched. -/
theorem dropWhile_append_stop (p : Char → Bool) (a b : Str)
    (h : a.dropWhile p ≠ []) : (a ++ b).dropWhile p = a.dropWhile p ++ b := by
  induction a with
  | nil => simp at h
  | cons c cs ih =>
    by_cases hc : p c = true
    · simp only [List.cons_append, List.dropWhile_cons, hc, if_true] at h ⊢
      exact ih h
    · have hc' : p c = false := by simpa using hc
      simp [List.dropWhile_cons, hc']

/-- Python strip ignores whitespace-only padding on either side. -/
theorem strip_pad (w1 s w2 : Str)
    (h1 : ∀ c ∈ w1, isPySpace c = true) (h2 : ∀ c ∈ w2, isPySpace c = true) :
    strip (w1 ++ s ++ w2) = strip s := by
  unfold strip stripLeft stripRight
  rw [List.append_assoc, dropWhile_append_sat _ _ _ h1]
  by_cases hs : s.dropWhile isPySpace = []
  · have hall : ∀ c ∈ s, isPySpace c = true := by
      simpa using List.dropWhile_eq_nil_iff.mp hs
    have hsw : (s ++ w2).dropWhile isPySpace = [] := by
      rw [dropWhile_append_sat _ _ _ hall]
      simpa using List.dropWhile_eq_nil_iff.mpr (by simpa using h2)
    rw [hsw, hs]
  · rw [dropWhile_append_stop _ _ _ hs, List.reverse_append,
      dropWhile_append_sat _ _ _ fun c hc => h2 c (List.mem_reverse.mp hc)]

/-- Claim C4, amended: normalize folds width and compatibility variants
via NFKC and trims edge whitespace, so inputs differing only there get
the same key; normalize_text additionally collapses internal whitespace
runs; neither function lowercases, and internal runs survive normalize —
ASCII case-insensitive matching is supplied by COLLATE NOCASE in the SQL
lookups instead. -/
theorem c4_amended :
    (∀ w1 s w2 : Str, (∀ c ∈ w1, isPySpace c = true) →
        (∀ c ∈ w2, isPySpace c = true) →
        normalize (w1 ++ s ++ w2) = normalize s) ∧
    normalize (lit "Ｃｌｏｓｅ   Ant ") = normalize (lit "Close   Ant") ∧
    normalize_text (lit "Ｃｌｏｓｅ   Ant ") = normalize_text (lit "Close Ant") ∧
    normalize (lit "Close   Ant") = lit "Close   Ant" := by
  refine ⟨?_, by decide, by decide, by decide⟩
  intro w1 s w2 h1 h2
  unfold normalize
  rw [strip_pad w1 s w2 h1 h2]

/-- Witness for the amended C4 at a one-space padding of x. -/
theorem c4_witness :
    (∀ c ∈ lit " ", isPySpace c = true) ∧
    normalize (lit " " ++ lit "x" ++ lit " ") = normalize (lit "x") :=
  ⟨by decide, c4_amended.1 (lit " ") (lit "x") (lit " ") (by decide) (by decide)⟩

/-- NFKC distributes over appending, being a per-code-point flat map. -/
theorem nfkc_append (a b : Str) : nfkc (a ++ b) = nfkc a ++ nfkc b := by
  simp [nfkc]

/-- Every output of the NFKC table is itself NFKC-normal. -/
theorem nfkcTable_outputs_fixed : ∀ p ∈ nfkcTable, nfkc p.2 = p.2 := by
  decide

/-- The NFKC image of a single code point is NFKC-stable. -/
theorem nfkcChar_fixed (c : Char) : nfkc (nfkcChar c) = nfkcChar c := by
  unfold nfkcChar
  cases hf : nfkcTable.find? (fun p => p.1 == c) with
  | none => simp [nfkc, nfkcChar, hf]
  | some p => exact nfkcTable_outputs_fixed p (List.mem_of_find?_eq_some hf)

/-- NFKC is idempotent. -/
theorem nfkc_idem (s : Str) : nfkc (nfkc s) = nfkc s := by
  induction s with
  | nil => rfl
  | cons c cs ih =>
    have hc : nfkc (c :: cs) = nfkcChar c ++ nfkc cs := by simp [nfkc]
    rw [hc, nfkc_append, nfkcChar_fixed, ih]

/-- Claim C5, amended: normalize is idempotent on every input whose
normalized form carries no leading or trailing whitespace (the
counterexample shows NFKC can create edge whitespace, which a second
strip removes). -/
theorem c5_amended (s : Str) (h : strip (normalize s) = normalize s) :
    normalize (normalize s) = normalize s := by
  have h1 : normalize (normalize s) = nfkc (strip (normalize s)) := rfl
  rw [h1, h]
  show nfkc (nfkc (strip s)) = nfkc (strip s)
  exact nfkc_idem _

/-- Witness for the amended C5 at the input ab. -/
theorem c5_witness :
    strip (normalize (lit "ab")) = normalize (lit "ab") ∧
    normalize (normalize (lit "ab")) = normalize (lit "ab") :=
  ⟨by decide, c5_amended (lit "ab") (by decide)⟩

/-- Claim C6, amended: for every label whose normalized form is
nonempty, resolve_species checks the three lookup paths in the spec's
order — synonym index exactly, then scientific name and vernacular name
case-insensitively — and returns the first hit, None when nothing
matches (this is the spec-worded `specResolveKey`); a label that
normalizes to the empty string returns None immediately, without
consulting the index. -/
theorem c6_amended :
    (∀ (db : DB) (label : Str), (normalize label).isEmpty = false →
        resolveSpecies db label = specResolveKey db (normalize label)) ∧
    (∀ (db : DB) (label : Str), (normalize label).isEmpty = true →
        resolveSpecies db label = none) := by
  constructor
  · intro db label h
    simp [resolveSpecies, specResolveKey, h]
  · intro db label h
    simp [resolveSpecies, h]

/-- Witness for the amended C6 at label a and a whitespace label. -/
theorem c6_witness :
    ((normalize (lit "a")).isEmpty = false ∧
      resolveSpecies emptyDB (lit "a") =
        specResolveKey emptyDB (normalize (lit "a"))) ∧
    ((normalize (lit " ")).isEmpty = true ∧
      resolveSpecies emptyDB (lit " ") = none) :=
  ⟨⟨by decide, c6_amended.1 emptyDB (lit "a") (by decide)⟩,
   ⟨by decide, c6_amended.2 emptyDB (lit " ") (by decide)⟩⟩

/-- Claim C7: the site upsert is first-write-wins — when the composite
natural key (reference id, site name, date-or-empty, lat-or-zero,
lon-or-zero) matches an existing row, the upsert returns that row's id
and leaves the whole table, hence every stored field of that row,
unchanged; concretely, importing two record rows with identical site key
but elevations 100 and 200 commits exactly one SurveySite row retaining
elevation 100. -/
theorem c7_theorem :
    (∀ (sites : List SiteRow) (rid : Nat) (sn sd : Str) (eid : Option Nat)
        (lat lon : Option Rat) (elev : Option Int) (s : SiteRow),
        sites.find? (siteKeyMatch rid sn sd lat lon) = some s →
        upsertSite sites rid sn sd eid lat lon elev = (s.id, sites)) ∧
    (importRecords (initState dbR) rowsC7).committed.sites =
      [⟨1, 1, lit "sA", [], some 1, none, none, some 100⟩] := by
  constructor
  · intro sites rid sn sd eid lat lon elev s h
    simp [upsertSite, h]
  · decide

/-- Witness for C7's keyed-match conjunct at a concrete one-row table. -/
theorem c7_witness :
    [siteC7w].find? (siteKeyMatch 2 (lit "sA") [] none none) = some siteC7w ∧
    upsertSite [siteC7w] 2 (lit "sA") [] (some 3) none none (some 99) =
      (5, [siteC7w]) :=
  ⟨by decide,
   c7_theorem.1 [siteC7w] 2 (lit "sA") [] (some 3) none none (some 99)
     siteC7w (by decide)⟩

/-- Claim C10, counterexample: after species aa registers alias foo, a
species-phase row with scientific name foo matches the existing species
row id 2, yet its alias bar is attached to species 1, because the
synonym insertion targets the id returned by the synonym-index-first
resolution, not the species row whose scientific name matched. -/
theorem c10_counterexample :
    (((importSpecies emptyDB rowsC10).species.find?
        (fun r => r.scientific_name == lit "foo")).map (fun r => r.id)) =
      some 2 ∧
    (((importSpecies emptyDB rowsC10).synonyms.find?
        (fun r => r.name_normalized == lit "bar")).map
        (fun r => r.species_id)) = some 1 := by
  decide

/-- An insert-or-ignore either leaves the synonym table unchanged or
appends exactly the one new row. -/
theorem insertOrIgnoreSynonym_cases (syns : List SynonymRow) (sid : Nat)
    (n nn t : Str) :
    insertOrIgnoreSynonym syns sid n nn t = syns ∨
    insertOrIgnoreSynonym syns sid n nn t =
      syns ++ [⟨nextId (syns.map fun r => r.id), sid, n, nn, t⟩] := by
  unfold insertOrIgnoreSynonym
  split
  · exact Or.inl rfl
  · exact Or.inr rfl

/-- Every row after an insert-or-ignore is an old row or belongs to the
inserting species. -/
theorem mem_insertOrIgnoreSynonym {x : SynonymRow}
    (syns : List SynonymRow) (sid : Nat) (n nn t : Str)
    (hx : x ∈ insertOrIgnoreSynonym syns sid n nn t) :
    x ∈ syns ∨ x.species_id = sid := by
  rcases insertOrIgnoreSynonym_cases syns sid n nn t with hc | hc <;>
    rw [hc] at hx
  · exact Or.inl hx
  · rcases List.mem_append.mp hx with h | h
    · exact Or.inl h
    · right
      have hx2 : x = ⟨nextId (syns.map fun r => r.id), sid, n, nn, t⟩ := by
        simpa using h
      rw [hx2]

/-- Insert-or-ignore never removes rows. -/
theorem insertOrIgnoreSynonym_mono {x : SynonymRow}
    (syns : List SynonymRow) (sid : Nat) (n nn t : Str) (hx : x ∈ syns) :
    x ∈ insertOrIgnoreSynonym syns sid n nn t := by
  rcases insertOrIgnoreSynonym_cases syns sid n nn t with hc | hc <;> rw [hc]
  · exact hx
  · exact List.mem_append_left _ hx

/-- After an insert-or-ignore the normalized name is present. -/
theorem insertOrIgnoreSynonym_any_self (syns : List SynonymRow) (sid : Nat)
    (n nn t : Str) :
    (insertOrIgnoreSynonym syns sid n nn t).any
      (fun r => r.name_normalized == nn) = true := by
  unfold insertOrIgnoreSynonym
  split
  · rename_i h
    exact h
  · simp

/-- Any row-existence fact survives an insert-or-ignore. -/
theorem insertOrIgnoreSynonym_any_mono (syns : List SynonymRow) (sid : Nat)
    (n nn t : Str) (p : SynonymRow → Bool) (h : syns.any p = true) :
    (insertOrIgnoreSynonym syns sid n nn t).any p = true := by
  rcases insertOrIgnoreSynonym_cases syns sid n nn t with hc | hc <;> rw [hc]
  · exact h
  · simp [List.any_append, h]

/-- Every row after the alias loop is an old row or belongs to the
inserting species. -/
theorem mem_insertAliases {x : SynonymRow} (ps : List Str)
    (syns : List SynonymRow) (sid : Nat)
    (hx : x ∈ insertAliases syns sid ps) : x ∈ syns ∨ x.species_id = sid := by
  induction ps generalizing syns with
  | nil => exact Or.inl hx
  | cons q qs ih =>
    simp only [insertAliases, List.foldl_cons] at hx
    by_cases hq : (normalize q).isEmpty = true
    · simp only [hq, if_true] at hx
      exact ih syns hx
    · simp only [hq, Bool.false_eq_true, if_false] at hx
      rcases ih _ hx with h | h
      · exact mem_insertOrIgnoreSynonym syns sid q (normalize q) (lit "alias") h
      · exact Or.inr h

/-- Any row-existence fact survives the alias loop. -/
theorem insertAliases_any_mono (ps : List Str) (syns : List SynonymRow)
    (sid : Nat) (p : SynonymRow → Bool) (h : syns.any p = true) :
    (insertAliases syns sid ps).any p = true := by
  induction ps generalizing syns with
  | nil => exact h
  | cons q qs ih =>
    simp only [insertAliases, List.foldl_cons]
    by_cases hq : (normalize q).isEmpty = true
    · simp only [hq, if_true]
      exact ih syns h
    · simp only [hq, Bool.false_eq_true, if_false]
      exact ih _ (insertOrIgnoreSynonym_any_mono syns sid q (normalize q)
        (lit "alias") p h)

/-- After the alias loop, every nonempty-normalizing piece is present as
a normalized synonym name. -/
theorem insertAliases_covers (ps : List Str) (syns : List SynonymRow)
    (sid : Nat) : ∀ q ∈ ps, (normalize q).isEmpty = false →
    (insertAliases syns sid ps).any
      (fun r => r.name_normalized == normalize q) = true := by
  induction ps generalizing syns with
  | nil => intro q hq; exact absurd hq (List.not_mem_nil q)
  | cons b bs ih =>
    intro q hq hne
    rcases List.mem_cons.mp hq with rfl | hq2
    · simp only [insertAliases, List.foldl_cons, hne, Bool.false_eq_true,
        if_false]
      exact insertAliases_any_mono bs _ sid _
        (insertOrIgnoreSynonym_any_self syns sid q (normalize q) (lit "alias"))
    · simp only [insertAliases, List.foldl_cons]
      by_cases hb : (normalize b).isEmpty = true
      · simp only [hb, if_true]
        exact ih syns q hq2 hne
      · simp only [hb, Bool.false_eq_true, if_false]
        exact ih _ q hq2 hne

/-- Claim C10, amended: for a species-phase row whose normalized
scientific name already exists in the species table, the species table —
hence every descriptive attribute of the existing row — is left
unchanged and the incoming attribute values are discarded; the row's
scientific name, vernacular name and nonempty comma-separated aliases
are still present after the insert-or-ignore synonym writes; but the new
synonym rows attach to the species id returned by the
synonym-index-first resolution of the scientific name, which is the
matched species row's id only when the name is not already registered as
a synonym (the counterexample shows them diverging). -/
theorem c10_amended (db : DB) (r : SpeciesCsvRow) (sid : Nat)
    (hmem : db.species.any
      (fun x => x.scientific_name == normalizeField r.scientific_name) = true)
    (hres : resolveSpecies db (normalizeField r.scientific_name) = some sid) :
    (importSpeciesRow db r).species = db.species ∧
    (∀ syn ∈ (importSpeciesRow db r).synonyms,
        syn ∈ db.synonyms ∨ syn.species_id = sid) ∧
    (importSpeciesRow db r).synonyms.any
      (fun x => x.name_normalized == normalizeField r.scientific_name) =
      true ∧
    (importSpeciesRow db r).synonyms.any
      (fun x => x.name_normalized == normalizeField r.japanese_name) = true ∧
    (∀ raw, r.synonyms = some raw → ∀ p ∈ splitComma raw,
        (normalize p).isEmpty = false →
        (importSpeciesRow db r).synonyms.any
          (fun x => x.name_normalized == normalize p) = true) ∧
    (∀ sp : SpeciesRow,
        db.synonyms.find? (fun y => y.name_normalized ==
          normalize (normalizeField r.scientific_name)) = none →
        db.species.find? (fun x => nocaseEq x.scientific_name
          (normalize (normalizeField r.scientific_name))) = some sp →
        sid = sp.id) := by
  have hsp : insertOrIgnoreSpecies db.species
      (normalizeField r.scientific_name) (normalizeField r.japanese_name)
      (normalizeField r.subfamily) r.body_len_mm
      (normalizeField r.red_list) = db.species := by
    unfold insertOrIgnoreSpecies
    rw [if_pos hmem]
  have hrow : importSpeciesRow db r =
      { db with synonyms :=
          match r.synonyms with
          | none =>
            insertOrIgnoreSynonym
              (insertOrIgnoreSynonym db.synonyms sid
                (normalizeField r.scientific_name)
                (normalizeField r.scientific_name) (lit "primary"))
              sid (normalizeField r.japanese_name)
              (normalizeField r.japanese_name) (lit "primary")
          | some raw =>
            insertAliases
              (insertOrIgnoreSynonym
                (insertOrIgnoreSynonym db.synonyms sid
                  (normalizeField r.scientific_name)
                  (normalizeField r.scientific_name) (lit "primary"))
                sid (normalizeField r.japanese_name)
                (normalizeField r.japanese_name) (lit "primary"))
              sid (splitComma raw) } := by
    unfold importSpeciesRow
    dsimp only
    rw [hsp]
    have hdb : ({ db with species := db.species } : DB) = db := rfl
    rw [hdb, hres]
  refine ⟨by rw [hrow], ?_, ?_, ?_, ?_, ?_⟩
  · intro syn hsyn
    rw [hrow] at hsyn
    cases hs : r.synonyms with
    | none =>
      rw [hs] at hsyn
      simp only at hsyn
      rcases mem_insertOrIgnoreSynonym _ sid _ _ _ hsyn with h | h
      · rcases mem_insertOrIgnoreSynonym _ sid _ _ _ h with h2 | h2
        · exact Or.inl h2
        · exact Or.inr h2
      · exact Or.inr h
    | some raw =>
      rw [hs] at hsyn
      simp only at hsyn
      rcases mem_insertAliases _ _ sid hsyn with h | h
      · rcases mem_insertOrIgnoreSynonym _ sid _ _ _ h with h2 | h2
        · rcases mem_insertOrIgnoreSynonym _ sid _ _ _ h2 with h3 | h3
          · exact Or.inl h3
          · exact Or.inr h3
        · exact Or.inr h2
      · exact Or.inr h
  · rw [hrow]
    cases hs : r.synonyms with
    | none =>
      simp only
      exact insertOrIgnoreSynonym_any_mono _ sid _ _ _ _
        (insertOrIgnoreSynonym_any_self db.synonyms sid _ _ _)
    | some raw =>
      simp only
      exact insertAliases_any_mono _ _ sid _
        (insertOrIgnoreSynonym_any_mono _ sid _ _ _ _
          (insertOrIgnoreSynonym_any_self db.synonyms sid _ _ _))
  · rw [hrow]
    cases hs : r.synonyms with
    | none =>
      simp only
      exact insertOrIgnoreSynonym_any_self _ sid _ _ _
    | some raw =>
      simp only
      exact insertAliases_any_mono _ _ sid _
        (insertOrIgnoreSynonym_any_self _ sid _ _ _)
  · intro raw hraw p hp hne
    rw [hrow, hraw]
    simp only
    exact insertAliases_covers (splitComma raw) _ sid p hp hne
  · intro sp hfsyn hfsci
    unfold resolveSpecies at hres
    by_cases hn : (normalize (normalizeField r.scientific_name)).isEmpty = true
    · rw [if_pos hn] at hres
      exact absurd hres (by simp)
    · rw [if_neg hn, hfsyn, hfsci] at hres
      exact (Option.some.injEq _ _ ▸ hres).symm

/-- Witness for the amended C10: re-importing species x over a store
that already holds it leaves the species table unchanged. -/
theorem c10_witness :
    dbC10w.species.any
      (fun x => x.scientific_name == normalizeField rowC10w.scientific_name) =
      true ∧
    resolveSpecies dbC10w (normalizeField rowC10w.scientific_name) = some 1 ∧
    (importSpeciesRow dbC10w rowC10w).species = dbC10w.species :=
  ⟨by decide, by decide,
   (c10_amended dbC10w rowC10w 1 (by decide) (by decide)).1⟩

/-- Claim C8: synonym collisions are absorbed by the insert-or-ignore —
whenever the normalized name is already present, the colliding insert
leaves the table unchanged (it is skipped, and no exception path
exists); concretely, registering species s1 with alias foo and then
species s2 with the same alias completes with both species rows present
and exactly one synonym row for foo, owned by the first registrant
(species 1) — the second registrant gets no foo row. -/
theorem c8_theorem :
    (∀ (syns : List SynonymRow) (sid : Nat) (n t nn : Str),
        syns.any (fun r => r.name_normalized == nn) = true →
        insertOrIgnoreSynonym syns sid n nn t = syns) ∧
    (importSpecies emptyDB (rowsC8 (lit "foo"))).species.map
        (fun x => (x.id, x.scientific_name)) =
      [(1, lit "s1"), (2, lit "s2")] ∧
    ((importSpecies emptyDB (rowsC8 (lit "foo"))).synonyms.filter
        (fun x => x.name_normalized == lit "foo")).map
        (fun x => x.species_id) = [1] := by
  refine ⟨?_, by decide, by decide⟩
  intro syns sid n t nn h
  unfold insertOrIgnoreSynonym
  rw [if_pos h]

/-- Witness for C8's collision-skip conjunct at a one-row table. -/
theorem c8_witness :
    [synC8w].any (fun r => r.name_normalized == lit "z") = true ∧
    insertOrIgnoreSynonym [synC8w] 9 (lit "zz") (lit "z") (lit "alias") =
      [synC8w] :=
  ⟨by decide,
   c8_theorem.1 [synC8w] 9 (lit "zz") (lit "alias") (lit "z") (by decide)⟩

end AntDB
